import Mathlib

/-!
Formal model of the Order Lifecycle and Financial Ledger Engine of
`enhanced_app.py` (repository recklessdude77/reck123).

Modelling choices, each noted where it applies:
  - money and numeric form inputs are exact rationals (the source uses Python
    floats; claims are settled over the ideal arithmetic, away from ties);
  - `round(x, 2)` is rounding to the nearest cent, ties to the even cent,
    which is the documented behaviour of the Python builtin on exact input;
  - `math.sqrt(area_sqft)` is modelled by an explicit `sqrtAreaSqft` input
    (the square-root oracle): callers supply the value the source computes,
    and theorems tie it to `Real.sqrt` by hypothesis;
  - `datetime.now()` is a logical clock `now : Nat` advanced once per handler;
  - random uuid identifiers (`ORD-`, `CUST-`, `PAY-` + 8 hex) are drawn from a
    counter `nextId : Nat`, preserving only uniqueness;
  - SQLite rows are Lean structures, tables are lists in insertion order, SQL
    `UPDATE ... WHERE id = ?` is a `List.map` guarded by the key, `SELECT ...
    WHERE id = ?` with `fetchone` is `List.find?`, and a handler whose source
    raises before its first write (missing row) leaves the state unchanged;
  - the address/contact columns not involved in any claim (country, state,
    city, pincode, address, email, priority, assigned_to) are omitted from
    the row structures; `created_by` is the fixed session user.
-/

/-- The static per-unit rate table `PRODUCT_RATES` keyed by
`(product_type, dimension)`, transcribed from the source configuration. -/
def PRODUCT_RATES : List ((String × String) × ℚ) :=
  [(("Chain Link", "3ft / 12 Gauge"), 80),
   (("Chain Link", "4ft / 12 Gauge"), 95),
   (("Chain Link", "4ft / 10 Gauge"), 110),
   (("Chain Link", "5ft / 10 Gauge"), 135),
   (("Chain Link", "6ft / 10 Gauge"), 165),
   (("Chain Link", "6ft / 8 Gauge"), 180),
   (("Chain Link", "8ft / 8 Gauge"), 195),
   (("Chain Link", "10ft / 8 Gauge"), 225),
   (("Barbed Wire", "12x12 Gauge"), 65),
   (("Barbed Wire", "12x14 Gauge"), 70),
   (("Barbed Wire", "14x14 Gauge"), 75)]

/-- The static `WORKFLOW_STEPS` mapping from order category to its ordered
sequence of status labels, transcribed from the source configuration. -/
def WORKFLOW_STEPS : List (String × List String) :=
  [("Material Purchase",
    ["Order placed", "Processing", "Ready for dispatch", "In transit",
     "Delivered/installed", "Settled", "Closed", "Cancelled"]),
   ("Fencing Contract Job",
    ["Order placed", "Site Survey", "Estimation Approved", "Material Dispatched",
     "Installation Started", "Installation Complete", "Handover Done",
     "Settled", "Closed", "Cancelled"])]

/-- Nearest integer with ties to the even integer: the rounding applied by the
Python builtin `round` on exact decimal input. -/
def roundHalfEven (q : ℚ) : ℤ :=
  if q - ⌊q⌋ < 1/2 then ⌊q⌋
  else if 1/2 < q - ⌊q⌋ then ⌊q⌋ + 1
  else if ⌊q⌋ % 2 = 0 then ⌊q⌋ else ⌊q⌋ + 1

/-- `round(x, 2)` of the source: round to two decimal places. -/
def round2 (q : ℚ) : ℚ := (roundHalfEven (100 * q) : ℚ) / 100

/-- Rate lookup `PRODUCT_RATES.get((product_type, dimension), 120)`. -/
def rateFor (product_type dimension : String) : ℚ :=
  (PRODUCT_RATES.lookup (product_type, dimension)).getD 120

/-- Soil multiplier lookup `soil_multiplier.get(soil_type, 1.0)` with table
`{"Normal": 1.0, "Rocky": 1.4, "Clay": 1.2}`; `none` is Python `None`. -/
def soilMultiplier (soil_type : Option String) : ℚ :=
  match soil_type with
  | some "Normal" => 1.0
  | some "Rocky" => 1.4
  | some "Clay" => 1.2
  | _ => 1.0

/-- The pricing function `calculate_cost` of the source. `sqrtAreaSqft` stands
for the value `math.sqrt(float(acres) * 43560)` the source computes in the
`acres > 0` branch (the square-root oracle; see the module comment). Returns
`(material_cost, installation_cost, transport_cost, total_cost, advance)`,
each rounded to two decimals. -/
def calculate_cost (sqrtAreaSqft : ℚ) (acres : ℚ) (product_type dimension order_type : String)
    (soil_type : Option String) (no_of_units : ℚ) : ℚ × ℚ × ℚ × ℚ × ℚ :=
  let perimeter : ℚ :=
    if 0 < acres then 4 * sqrtAreaSqft * 1.05
    else if 0 < no_of_units then no_of_units
    else 0
  let rate := rateFor product_type dimension
  let material_cost := perimeter * rate
  let installation_cost :=
    if order_type = "Fencing Contract Job" then
      material_cost * 0.25 * soilMultiplier soil_type
    else 0
  let transport_cost : ℚ := 0
  let total_cost := material_cost + installation_cost + transport_cost
  let advance :=
    if order_type = "Material Purchase" then total_cost * 0.40 else total_cost * 0.55
  (round2 material_cost, round2 installation_cost, round2 transport_cost,
   round2 total_cost, round2 advance)

/-- A row of the `orders` table (claim-relevant columns). -/
structure Order where
  order_id : Nat
  customer_id : Nat
  name : String
  mobile : String
  acres : ℚ
  no_of_units : ℚ
  soil_type : String
  product_type : String
  product_material : String
  dimension : String
  order_type : String
  material_cost : ℚ
  installation_cost : ℚ
  transport_cost : ℚ
  total_cost : ℚ
  advance_payment : ℚ
  advance_paid : ℚ
  balance_due : ℚ
  delivery_date : String
  payment_status : String
  status : String
  created_at : Nat
  created_by : String
  updated_at : Option Nat
  notes : String
  deriving DecidableEq, Inhabited

/-- A row of the `customers` table (claim-relevant columns). -/
structure Customer where
  customer_id : Nat
  name : String
  mobile : String
  total_orders : Nat
  total_spent : ℚ
  created_at : Nat
  last_order_date : Option Nat
  deriving DecidableEq, Inhabited

/-- A row of the `payments` table. -/
structure Payment where
  payment_id : Nat
  order_id : Nat
  customer_id : Nat
  amount : ℚ
  payment_date : Nat
  payment_method : String
  reference_number : String
  notes : String
  created_at : Nat
  deriving DecidableEq, Inhabited

/-- The durable store plus the logical clock and the id counter. -/
structure DB where
  orders : List Order
  customers : List Customer
  payments : List Payment
  now : Nat
  nextId : Nat
  deriving DecidableEq, Inhabited

/-- The empty database produced by `init_db`. -/
def dbInit : DB := { orders := [], customers := [], payments := [], now := 0, nextId := 1 }

/-- The form fields read by `submit_order` / `update_order`. `sqrtAreaSqft` is
the square-root oracle input for `calculate_cost` (see the module comment);
`status` is only read by `update_order`. -/
structure OrderForm where
  name : String
  mobile : String
  product_type : String
  product_material : String
  dimension : String
  order_type : String
  delivery_date : String
  notes : String
  status : String
  acres : ℚ
  no_of_units : ℚ
  soil_type : String
  sqrtAreaSqft : ℚ
  deriving DecidableEq, Inhabited

/-- `get_or_create_customer`: look the customer up by mobile number; on a hit
overwrite the contact fields, otherwise insert a fresh row. Returns the new
state and the customer id. -/
def get_or_create_customer (db : DB) (mobile name : String) : DB × Nat :=
  match db.customers.find? (fun c => c.mobile == mobile) with
  | some c =>
      ({ db with customers := db.customers.map (fun c2 =>
            if c2.mobile == mobile then { c2 with name := name } else c2) },
       c.customer_id)
  | none =>
      ({ db with
          customers := db.customers ++
            [{ customer_id := db.nextId
               name := name
               mobile := mobile
               total_orders := 0
               total_spent := 0
               created_at := db.now
               last_order_date := none }]
          nextId := db.nextId + 1 },
       db.nextId)

/-- `update_customer_stats`: overwrite the customer's derived aggregates with
`COUNT(*)`, `COALESCE(SUM(total_cost), 0)` and `MAX(created_at)` over the
orders owned by `customer_id`. -/
def update_customer_stats (db : DB) (customer_id : Nat) : DB :=
  let owned := db.orders.filter (fun o => o.customer_id == customer_id)
  { db with customers := db.customers.map (fun c =>
      if c.customer_id == customer_id then
        { c with
            total_orders := owned.length
            total_spent := (owned.map (fun o => o.total_cost)).sum
            last_order_date := (owned.map (fun o => o.created_at)).max? }
      else c) }

/-- The order row inserted by `submit_order`, with costs from
`calculate_cost`, `advance_paid = 0`, `balance_due = total_cost`,
`payment_status = 'Unpaid'` and `status = 'Order placed'`. -/
def newOrderOf (db : DB) (f : OrderForm) (customer_id : Nat) : Order :=
  let cc := calculate_cost f.sqrtAreaSqft f.acres f.product_type f.dimension
              f.order_type (some f.soil_type) f.no_of_units
  { order_id := db.nextId
    customer_id := customer_id
    name := f.name
    mobile := f.mobile
    acres := f.acres
    no_of_units := f.no_of_units
    soil_type := f.soil_type
    product_type := f.product_type
    product_material := f.product_material
    dimension := f.dimension
    order_type := f.order_type
    material_cost := cc.1
    installation_cost := cc.2.1
    transport_cost := cc.2.2.1
    total_cost := cc.2.2.2.1
    advance_payment := cc.2.2.2.2
    advance_paid := 0
    balance_due := cc.2.2.2.1
    delivery_date := f.delivery_date
    payment_status := "Unpaid"
    status := "Order placed"
    created_at := db.now
    created_by := "user"
    updated_at := none
    notes := f.notes }

/-- The `/submit_order` handler: resolve the customer, price the
specification, insert the order, then recompute the customer aggregates. -/
def submit_order (db : DB) (f : OrderForm) : DB :=
  let p := get_or_create_customer db f.mobile f.name
  let db2 := { p.1 with
                 orders := p.1.orders ++ [newOrderOf p.1 f p.2]
                 nextId := p.1.nextId + 1 }
  let db3 := update_customer_stats db2 p.2
  { db3 with now := db3.now + 1 }

/-- The `/update_order` handler: reprice the (possibly changed) specification,
read the current `advance_paid`, and overwrite the mutable columns of the row;
a missing order id raises before the write, leaving the state unchanged. -/
def update_order (db : DB) (order_id : Nat) (f : OrderForm) : DB :=
  match db.orders.find? (fun o => o.order_id == order_id) with
  | none => db
  | some od =>
    let cc := calculate_cost f.sqrtAreaSqft f.acres f.product_type f.dimension
                f.order_type (some f.soil_type) f.no_of_units
    let balance_due := cc.2.2.2.1 - od.advance_paid
    { db with
        orders := db.orders.map (fun o =>
          if o.order_id == order_id then
            { o with
                name := f.name
                mobile := f.mobile
                acres := f.acres
                no_of_units := f.no_of_units
                product_type := f.product_type
                product_material := f.product_material
                dimension := f.dimension
                order_type := f.order_type
                soil_type := f.soil_type
                material_cost := cc.1
                installation_cost := cc.2.1
                transport_cost := cc.2.2.1
                total_cost := cc.2.2.2.1
                advance_payment := cc.2.2.2.2
                balance_due := balance_due
                delivery_date := f.delivery_date
                status := f.status
                notes := f.notes
                updated_at := some db.now }
          else o)
        now := db.now + 1 }

/-- The `/add_payment/<order_id>` handler: read `customer_id` and
`advance_paid` from the order (a missing id raises before any write), insert
the payment row, then overwrite `advance_paid`, `balance_due` and
`payment_status` on the order. The source applies no validation to `amount`. -/
def add_payment (db : DB) (order_id : Nat) (amount : ℚ)
    (payment_method reference payment_notes : String) : DB :=
  match db.orders.find? (fun o => o.order_id == order_id) with
  | none => db
  | some od =>
    let new_paid := od.advance_paid + amount
    let new_balance := od.total_cost - new_paid
    let payment_status := if new_balance ≤ 0 then "Paid" else "Partially Paid"
    { db with
        payments := db.payments ++
          [{ payment_id := db.nextId
             order_id := order_id
             customer_id := od.customer_id
             amount := amount
             payment_date := db.now
             payment_method := payment_method
             reference_number := reference
             notes := payment_notes
             created_at := db.now }]
        orders := db.orders.map (fun o =>
          if o.order_id == order_id then
            { o with
                advance_paid := new_paid
                balance_due := new_balance
                payment_status := payment_status
                updated_at := some db.now }
          else o)
        nextId := db.nextId + 1
        now := db.now + 1 }

/-- The `/update_status` handler: unconditional status overwrite. -/
def update_status (db : DB) (order_id : Nat) (new_status : String) : DB :=
  { db with
      orders := db.orders.map (fun o =>
        if o.order_id == order_id then
          { o with status := new_status, updated_at := some db.now }
        else o)
      now := db.now + 1 }

/-- The advance step of `admin_approve_order`: index of `"Order placed"` in
the workflow, then the following entry, falling back to `"Processing"` when
the label is absent (`ValueError`) or last (`IndexError`). -/
def nextAfterOrderPlaced (workflow : List String) : String :=
  match workflow.findIdx? (fun s => s == "Order placed") with
  | some i => (workflow[i + 1]?).getD "Processing"
  | none => "Processing"

/-- The `/admin/approve_order` handler: `WORKFLOW_STEPS.get(order_type, [])`,
advance past `"Order placed"`, and overwrite the status; a missing order id
raises before the write. -/
def admin_approve_order (db : DB) (order_id : Nat) : DB :=
  match db.orders.find? (fun o => o.order_id == order_id) with
  | none => db
  | some od =>
    let workflow := (WORKFLOW_STEPS.lookup od.order_type).getD []
    let new_status := nextAfterOrderPlaced workflow
    { db with
        orders := db.orders.map (fun o =>
          if o.order_id == order_id then
            { o with status := new_status, updated_at := some db.now }
          else o)
        now := db.now + 1 }

/-- The `/admin/update_payment_status` handler: unconditional overwrite of
`payment_status` with the supplied string. -/
def admin_update_payment_status (db : DB) (order_id : Nat) (new_payment_status : String) : DB :=
  { db with
      orders := db.orders.map (fun o =>
        if o.order_id == order_id then
          { o with payment_status := new_payment_status, updated_at := some db.now }
        else o)
      now := db.now + 1 }

/-- The states reachable from the empty database by the handlers of the core:
order creation, edit, payment recording, the permissive status overwrite, the
admin approval and the admin payment-status override. -/
inductive Reachable : DB → Prop
  | init : Reachable dbInit
  | submit (db : DB) (f : OrderForm) : Reachable db → Reachable (submit_order db f)
  | update (db : DB) (oid : Nat) (f : OrderForm) :
      Reachable db → Reachable (update_order db oid f)
  | pay (db : DB) (oid : Nat) (amount : ℚ) (m r n : String) :
      Reachable db → Reachable (add_payment db oid amount m r n)
  | setStatus (db : DB) (oid : Nat) (s : String) :
      Reachable db → Reachable (update_status db oid s)
  | approve (db : DB) (oid : Nat) : Reachable db → Reachable (admin_approve_order db oid)
  | setPaymentStatus (db : DB) (oid : Nat) (s : String) :
      Reachable db → Reachable (admin_update_payment_status db oid s)

/-- The row overwrite performed by `update_order` on the matching row `o`,
with `od` the row fetched for the current `advance_paid`. -/
def updateOrderRow (db : DB) (f : OrderForm) (od : Order) (o : Order) : Order :=
  { o with
      name := f.name
      mobile := f.mobile
      acres := f.acres
      no_of_units := f.no_of_units
      product_type := f.product_type
      product_material := f.product_material
      dimension := f.dimension
      order_type := f.order_type
      soil_type := f.soil_type
      material_cost := (calculate_cost f.sqrtAreaSqft f.acres f.product_type f.dimension
        f.order_type (some f.soil_type) f.no_of_units).1
      installation_cost := (calculate_cost f.sqrtAreaSqft f.acres f.product_type f.dimension
        f.order_type (some f.soil_type) f.no_of_units).2.1
      transport_cost := (calculate_cost f.sqrtAreaSqft f.acres f.product_type f.dimension
        f.order_type (some f.soil_type) f.no_of_units).2.2.1
      total_cost := (calculate_cost f.sqrtAreaSqft f.acres f.product_type f.dimension
        f.order_type (some f.soil_type) f.no_of_units).2.2.2.1
      advance_payment := (calculate_cost f.sqrtAreaSqft f.acres f.product_type f.dimension
        f.order_type (some f.soil_type) f.no_of_units).2.2.2.2
      balance_due := (calculate_cost f.sqrtAreaSqft f.acres f.product_type f.dimension
        f.order_type (some f.soil_type) f.no_of_units).2.2.2.1 - od.advance_paid
      delivery_date := f.delivery_date
      status := f.status
      notes := f.notes
      updated_at := some db.now }

/-- The row overwrite performed by `add_payment` on the matching row `o`,
with `od` the row fetched for `advance_paid` and `total_cost`. -/
def addPaymentRow (db : DB) (amount : ℚ) (od : Order) (o : Order) : Order :=
  { o with
      advance_paid := od.advance_paid + amount
      balance_due := od.total_cost - (od.advance_paid + amount)
      payment_status :=
        if od.total_cost - (od.advance_paid + amount) ≤ 0 then "Paid"
        else "Partially Paid"
      updated_at := some db.now }

/-- The status overwrite shared by `update_status` and `admin_approve_order`. -/
def statusRow (db : DB) (s : String) (o : Order) : Order :=
  { o with status := s, updated_at := some db.now }

/-- The overwrite performed by `admin_update_payment_status`. -/
def paymentStatusRow (db : DB) (s : String) (o : Order) : Order :=
  { o with payment_status := s, updated_at := some db.now }

/-- Modelled from the claim wording for the approval step (spec §4.2): the
workflow lookup falls back to the Material Purchase sequence for an
unrecognized category, then advances past `"Order placed"` with the
`"Processing"` fallback. The source instead falls back to the empty list;
the equivalence of the two is part of claim C8. -/
def approveStatusSpec (order_type : String) : String :=
  nextAfterOrderPlaced ((WORKFLOW_STEPS.lookup order_type).getD
    ((WORKFLOW_STEPS.lookup "Material Purchase").getD []))

/-- Financial reconciliation of a stored order row: the balance equals the
total minus the amount paid, and the stored total agrees with the sum of the
stored components to within one cent. -/
def FinOk (o : Order) : Prop :=
  o.balance_due = o.total_cost - o.advance_paid ∧
  |o.total_cost - (o.material_cost + o.installation_cost + o.transport_cost)| ≤ 1/100

/-- The inductive invariant carried over reachable states: every order id is
below the id counter, ids are pairwise distinct, and every row reconciles. -/
def StoreInv (db : DB) : Prop :=
  (∀ o ∈ db.orders, o.order_id < db.nextId ∧ FinOk o) ∧
  (db.orders.map fun o => o.order_id).Nodup

/-! Concrete scenario states used by witnesses and counterexamples. -/

/-- A Material Purchase order form: 12.5 units of Chain Link 3ft / 12 Gauge
(rate 80), so `total_cost = 1000`. -/
def formA : OrderForm :=
  { name := "Asha"
    mobile := "9000000001"
    product_type := "Chain Link"
    product_material := "GI Wire"
    dimension := "3ft / 12 Gauge"
    order_type := "Material Purchase"
    delivery_date := "2026-01-01"
    notes := ""
    status := "Processing"
    acres := 0
    no_of_units := 12.5
    soil_type := "Normal"
    sqrtAreaSqft := 0 }

/-- Same customer and product as `formA` but 25 units: `total_cost = 2000`. -/
def formB : OrderForm := { formA with no_of_units := 25 }

/-- Same customer and product as `formA` but 37.5 units: `total_cost = 3000`. -/
def formE : OrderForm := { formA with no_of_units := 37.5 }

/-- A form with neither acres nor a unit count: every cost is 0. -/
def formZero : OrderForm := { formA with no_of_units := 0 }

/-- A Fencing Contract Job with an unlisted product (rate falls back to 120)
and 0.100225 units: the raw costs are 12.027 and 3.00675, which round to
12.03 and 3.01 while their sum 15.03375 rounds to 15.03. -/
def formC1 : OrderForm :=
  { formA with
      product_type := "Steel Post"
      dimension := "7ft"
      order_type := "Fencing Contract Job"
      no_of_units := 4009/40000 }

/-- One order (id 2, customer id 1, `total_cost = 1000`) in the store. -/
def dbS0 : DB := submit_order dbInit formA

/-- The customer row of `dbS0` after one 1000-rupee order. -/
def custS0 : Customer :=
  { customer_id := 1
    name := "Asha"
    mobile := "9000000001"
    total_orders := 1
    total_spent := 1000
    created_at := 0
    last_order_date := some 0 }

/-- The order row created by `submit_order dbInit formA`. -/
def odS0 : Order :=
  { order_id := 2
    customer_id := 1
    name := "Asha"
    mobile := "9000000001"
    acres := 0
    no_of_units := 12.5
    soil_type := "Normal"
    product_type := "Chain Link"
    product_material := "GI Wire"
    dimension := "3ft / 12 Gauge"
    order_type := "Material Purchase"
    material_cost := 1000
    installation_cost := 0
    transport_cost := 0
    total_cost := 1000
    advance_payment := 400
    advance_paid := 0
    balance_due := 1000
    delivery_date := "2026-01-01"
    payment_status := "Unpaid"
    status := "Order placed"
    created_at := 0
    created_by := "user"
    updated_at := none
    notes := "" }

/-- `dbS0` after a first payment of 500 against order 2. -/
def dbS1 : DB := add_payment dbS0 2 500 "Cash" "" ""

/-- The payment row recorded by the first payment of 500. -/
def payS1 : Payment :=
  { payment_id := 3
    order_id := 2
    customer_id := 1
    amount := 500
    payment_date := 1
    payment_method := "Cash"
    reference_number := ""
    notes := ""
    created_at := 1 }

/-- The order row of `dbS1`: `advance_paid = 500`, half of the 1000 due. -/
def odS1 : Order :=
  { odS0 with
      advance_paid := 500
      balance_due := 500
      payment_status := "Partially Paid"
      updated_at := some 1 }

/-- `dbS1` after a second payment of 700 against order 2. -/
def dbS2 : DB := add_payment dbS1 2 700 "UPI" "" ""

/-- The payment row recorded by the second payment of 700. -/
def payS2 : Payment :=
  { payment_id := 4
    order_id := 2
    customer_id := 1
    amount := 700
    payment_date := 2
    payment_method := "UPI"
    reference_number := ""
    notes := ""
    created_at := 2 }

/-- The order row of `dbS2`: over-paid at 1200 against 1000. -/
def odS2 : Order :=
  { odS1 with
      advance_paid := 1200
      balance_due := -200
      payment_status := "Paid"
      updated_at := some 2 }

/-- Three orders for the same mobile number with totals 1000, 2000, 3000. -/
def db3 : DB := submit_order (submit_order dbS0 formB) formE

/-- The order row created by submitting `formB` on `dbS0` (id 3, total 2000). -/
def odB3 : Order :=
  { odS0 with
      order_id := 3
      no_of_units := 25
      material_cost := 2000
      total_cost := 2000
      advance_payment := 800
      balance_due := 2000
      created_at := 1 }

/-- The order row created by submitting `formE` (id 4, total 3000). -/
def odE4 : Order :=
  { odS0 with
      order_id := 4
      no_of_units := 37.5
      material_cost := 3000
      total_cost := 3000
      advance_payment := 1200
      balance_due := 3000
      created_at := 2 }

/-- The customer row of `db3`: 3 orders, 6000 spent. -/
def custW : Customer :=
  { custS0 with
      total_orders := 3
      total_spent := 6000
      last_order_date := some 2 }

/-- `dbS0` after editing order 2 to 25 units (`total_cost` becomes 2000). -/
def dbB : DB := update_order dbS0 2 formB

/-- The order row of `dbB`: repriced to 2000 with `advance_paid` kept at 0. -/
def odB : Order :=
  { odS0 with
      no_of_units := 25
      material_cost := 2000
      total_cost := 2000
      advance_payment := 800
      balance_due := 2000
      status := "Processing"
      updated_at := some 1 }

/-- A freshly created order with every cost equal to 0. -/
def dbZ : DB := submit_order dbInit formZero

/-- The zero-cost order row of `dbZ`: `balance_due = 0` yet still `Unpaid`. -/
def odZ : Order :=
  { odS0 with
      no_of_units := 0
      material_cost := 0
      total_cost := 0
      advance_payment := 0
      balance_due := 0 }

/-- The customer row of `dbZ`. -/
def custZ : Customer := { custS0 with total_spent := 0 }

/-- A freshly created order whose stored `total_cost` (15.03) differs from
the sum of its stored rounded components (12.03 + 3.01 + 0 = 15.04). -/
def dbC1 : DB := submit_order dbInit formC1

/-- The order row of `dbC1`. -/
def odC1 : Order :=
  { odS0 with
      product_type := "Steel Post"
      dimension := "7ft"
      order_type := "Fencing Contract Job"
      no_of_units := 4009/40000
      material_cost := 1203/100
      installation_cost := 301/100
      total_cost := 1503/100
      advance_payment := 827/100
      balance_due := 1503/100 }

/-- The customer row of `dbC1`. -/
def custC1 : Customer := { custS0 with total_spent := 1503/100 }

/-- `dbS0` after a payment of amount 0 against order 2: the source accepts it
and flips the status to Partially Paid with `amount_paid` still 0. -/
def dbP0 : DB := add_payment dbS0 2 0 "Cash" "" ""

/-- The payment row of amount 0. -/
def payP0 : Payment :=
  { payment_id := 3
    order_id := 2
    customer_id := 1
    amount := 0
    payment_date := 1
    payment_method := "Cash"
    reference_number := ""
    notes := ""
    created_at := 1 }

/-- The order row of `dbP0`: `advance_paid = 0`, `payment_status` flipped. -/
def odP0 : Order :=
  { odS0 with payment_status := "Partially Paid", updated_at := some 1 }

/-- `dbS0` after a payment of amount -100 against order 2: the source applies
no validation, so the row is inserted and `amount_paid` goes negative. -/
def dbNeg : DB := add_payment dbS0 2 (-100) "Cash" "" ""

/-- The payment row of amount -100. -/
def payNeg : Payment :=
  { payment_id := 3
    order_id := 2
    customer_id := 1
    amount := -100
    payment_date := 1
    payment_method := "Cash"
    reference_number := ""
    notes := ""
    created_at := 1 }

/-- The order row of `dbNeg`: `advance_paid = -100`, `balance_due = 1100`. -/
def odNeg : Order :=
  { odS0 with
      advance_paid := -100
      balance_due := 1100
      payment_status := "Partially Paid"
      updated_at := some 1 }

/-! Rounding lemmas: certificates for evaluating `round2` on concrete input
and the one-cent bound used by the financial reconciliation invariant. -/

lemma roundHalfEven_sub_abs_le (q : ℚ) : |(roundHalfEven q : ℚ) - q| ≤ 1/2 := by
  have h1 : (⌊q⌋ : ℚ) ≤ q := Int.floor_le q
  have h2 : q < ⌊q⌋ + 1 := Int.lt_floor_add_one q
  unfold roundHalfEven
  split_ifs with ha hb hc <;> rw [abs_le] <;> constructor <;> push_cast <;> linarith

lemma round2_sub_abs_le (q : ℚ) : |round2 q - q| ≤ 1/200 := by
  have h := roundHalfEven_sub_abs_le (100 * q)
  rw [abs_le] at h ⊢
  unfold round2
  constructor <;> [linarith [h.1]; linarith [h.2]]

lemma round2_of_cents (q : ℚ) (n : ℤ) (h : 100 * q = (n : ℚ)) : round2 q = q := by
  have hf : ⌊(100 : ℚ) * q⌋ = n := by rw [h]; exact Int.floor_intCast n
  unfold round2 roundHalfEven
  rw [hf, h, sub_self]
  rw [if_pos (by norm_num : (0 : ℚ) < 1/2)]
  rw [← h]; ring

lemma round2_zero : round2 0 = 0 := round2_of_cents 0 0 (by norm_num)

lemma round2_eq_low (q : ℚ) (n : ℤ) (h1 : (n : ℚ) ≤ 100 * q) (h2 : 100 * q < n + 1)
    (h3 : 100 * q - n < 1/2) : round2 q = (n : ℚ) / 100 := by
  have hf : ⌊(100 : ℚ) * q⌋ = n := Int.floor_eq_iff.mpr ⟨h1, h2⟩
  unfold round2 roundHalfEven
  rw [hf, if_pos h3]

lemma round2_eq_high (q : ℚ) (n : ℤ) (h1 : (n : ℚ) ≤ 100 * q) (h2 : 100 * q < n + 1)
    (h3 : 1/2 < 100 * q - n) : round2 q = ((n : ℚ) + 1) / 100 := by
  have hf : ⌊(100 : ℚ) * q⌋ = n := Int.floor_eq_iff.mpr ⟨h1, h2⟩
  unfold round2 roundHalfEven
  rw [hf, if_neg (by push_neg; linarith), if_pos h3]
  push_cast
  ring

lemma round2_total_close (m i : ℚ) :
    |round2 (m + i + 0) - (round2 m + round2 i + round2 0)| ≤ 1/100 := by
  have hm := round2_sub_abs_le m
  have hi := round2_sub_abs_le i
  have hs := round2_sub_abs_le (m + i + 0)
  have key : round2 (m + i + 0) - (round2 m + round2 i + round2 0) =
      ((roundHalfEven (100 * (m + i + 0)) - roundHalfEven (100 * m) -
        roundHalfEven (100 * i) : ℤ) : ℚ) / 100 := by
    rw [round2_zero]
    unfold round2
    push_cast
    ring
  have habs : |((roundHalfEven (100 * (m + i + 0)) - roundHalfEven (100 * m) -
      roundHalfEven (100 * i) : ℤ) : ℚ)| ≤ 3/2 := by
    have hval : ((roundHalfEven (100 * (m + i + 0)) - roundHalfEven (100 * m) -
        roundHalfEven (100 * i) : ℤ) : ℚ) =
        ((round2 (m + i + 0) - (m + i + 0)) - (round2 m - m) - (round2 i - i)) * 100 := by
      unfold round2
      push_cast
      ring
    rw [hval]
    rw [abs_le] at hm hi hs ⊢
    constructor <;> nlinarith [hm.1, hm.2, hi.1, hi.2, hs.1, hs.2]
  have hint : |roundHalfEven (100 * (m + i + 0)) - roundHalfEven (100 * m) -
      roundHalfEven (100 * i)| ≤ 1 := by
    by_contra hcon
    push_neg at hcon
    have h2le : (2 : ℤ) ≤ |roundHalfEven (100 * (m + i + 0)) - roundHalfEven (100 * m) -
        roundHalfEven (100 * i)| := hcon
    have : (2 : ℚ) ≤ |((roundHalfEven (100 * (m + i + 0)) - roundHalfEven (100 * m) -
        roundHalfEven (100 * i) : ℤ) : ℚ)| := by
      rw [← Int.cast_abs]
      exact_mod_cast h2le
    linarith
  rw [key, abs_div, abs_of_pos (by norm_num : (0:ℚ) < 100)]
  have : |((roundHalfEven (100 * (m + i + 0)) - roundHalfEven (100 * m) -
      roundHalfEven (100 * i) : ℤ) : ℚ)| ≤ 1 := by
    rw [← Int.cast_abs]
    exact_mod_cast hint
  linarith

/-! Evaluation of `calculate_cost`: the stored transport cost is always 0 and
the stored total agrees with the sum of the stored components to within one
cent; plus the concrete instances the scenarios use. -/

lemma calculate_cost_transport (s a : ℚ) (pt d ot : String) (soil : Option String) (u : ℚ) :
    (calculate_cost s a pt d ot soil u).2.2.1 = 0 := by
  show round2 0 = 0
  exact round2_zero

lemma calculate_cost_close (s a : ℚ) (pt d ot : String) (soil : Option String) (u : ℚ) :
    |(calculate_cost s a pt d ot soil u).2.2.2.1 -
      ((calculate_cost s a pt d ot soil u).1 + (calculate_cost s a pt d ot soil u).2.1 +
        (calculate_cost s a pt d ot soil u).2.2.1)| ≤ 1/100 :=
  round2_total_close _ _

lemma rate_3ft : rateFor "Chain Link" "3ft / 12 Gauge" = 80 := rfl

lemma rate_4ft12 : rateFor "Chain Link" "4ft / 12 Gauge" = 95 := rfl

lemma rate_steelpost : rateFor "Steel Post" "7ft" = 120 := rfl

lemma soil_normal : soilMultiplier (some "Normal") = 1 := by norm_num [soilMultiplier]

lemma soil_clay : soilMultiplier (some "Clay") = 1.2 := by norm_num [soilMultiplier]

lemma calcA : calculate_cost 0 0 "Chain Link" "3ft / 12 Gauge" "Material Purchase"
    (some "Normal") 12.5 = (1000, 0, 0, 1000, 400) := by
  have hMP : ("Material Purchase" = "Fencing Contract Job") = False := by simp
  have r1 : round2 (1000 : ℚ) = 1000 := round2_of_cents _ 100000 (by norm_num)
  have r2 : round2 (400 : ℚ) = 400 := round2_of_cents _ 40000 (by norm_num)
  simp only [calculate_cost, rate_3ft, soil_normal]
  norm_num [hMP, r1, r2, round2_zero]

lemma calcB : calculate_cost 0 0 "Chain Link" "3ft / 12 Gauge" "Material Purchase"
    (some "Normal") 25 = (2000, 0, 0, 2000, 800) := by
  have hMP : ("Material Purchase" = "Fencing Contract Job") = False := by simp
  have r1 : round2 (2000 : ℚ) = 2000 := round2_of_cents _ 200000 (by norm_num)
  have r2 : round2 (800 : ℚ) = 800 := round2_of_cents _ 80000 (by norm_num)
  simp only [calculate_cost, rate_3ft, soil_normal]
  norm_num [hMP, r1, r2, round2_zero]

lemma calcE : calculate_cost 0 0 "Chain Link" "3ft / 12 Gauge" "Material Purchase"
    (some "Normal") 37.5 = (3000, 0, 0, 3000, 1200) := by
  have hMP : ("Material Purchase" = "Fencing Contract Job") = False := by simp
  have r1 : round2 (3000 : ℚ) = 3000 := round2_of_cents _ 300000 (by norm_num)
  have r2 : round2 (1200 : ℚ) = 1200 := round2_of_cents _ 120000 (by norm_num)
  simp only [calculate_cost, rate_3ft, soil_normal]
  norm_num [hMP, r1, r2, round2_zero]

lemma calcZ : calculate_cost 0 0 "Chain Link" "3ft / 12 Gauge" "Material Purchase"
    (some "Normal") 0 = (0, 0, 0, 0, 0) := by
  have hMP : ("Material Purchase" = "Fencing Contract Job") = False := by simp
  simp only [calculate_cost, rate_3ft, soil_normal]
  norm_num [hMP, round2_zero]

lemma calcC1 : calculate_cost 0 0 "Steel Post" "7ft" "Fencing Contract Job"
    (some "Normal") (4009/40000) = (1203/100, 301/100, 0, 1503/100, 827/100) := by
  have hFC : ("Fencing Contract Job" = "Fencing Contract Job") = True := by simp
  have hFM : ("Fencing Contract Job" = "Material Purchase") = False := by simp
  have r1 : round2 (12027/1000 : ℚ) = 1203/100 := by
    rw [round2_eq_high _ 1202 (by norm_num) (by norm_num) (by norm_num)]; norm_num
  have r2 : round2 (12027/4000 : ℚ) = 301/100 := by
    rw [round2_eq_high _ 300 (by norm_num) (by norm_num) (by norm_num)]; norm_num
  have r3 : round2 (12027/800 : ℚ) = 1503/100 := by
    rw [round2_eq_low _ 1503 (by norm_num) (by norm_num) (by norm_num)]; norm_num
  have r4 : round2 (132297/16000 : ℚ) = 827/100 := by
    rw [round2_eq_high _ 826 (by norm_num) (by norm_num) (by norm_num)]; norm_num
  simp only [calculate_cost, rate_steelpost, soil_normal]
  norm_num [hFC, hFM, r1, r2, r3, r4, round2_zero]

lemma calcW : calculate_cost 10 (5/2178) "Chain Link" "4ft / 12 Gauge" "Fencing Contract Job"
    (some "Clay") 0 = (3990, 1197, 0, 5187, 57057/20) := by
  have hFC : ("Fencing Contract Job" = "Fencing Contract Job") = True := by simp
  have hFM : ("Fencing Contract Job" = "Material Purchase") = False := by simp
  have r1 : round2 (3990 : ℚ) = 3990 := round2_of_cents _ 399000 (by norm_num)
  have r2 : round2 (1197 : ℚ) = 1197 := round2_of_cents _ 119700 (by norm_num)
  have r3 : round2 (5187 : ℚ) = 5187 := round2_of_cents _ 518700 (by norm_num)
  have r4 : round2 (57057/20 : ℚ) = 57057/20 := round2_of_cents _ 285285 (by norm_num)
  simp only [calculate_cost, rate_4ft12, soil_clay]
  norm_num [hFC, hFM, r1, r2, r3, r4, round2_zero]

/-! Explicit literal forms of the scenario states. -/

lemma dbS0_eq : dbS0 =
    { orders := [odS0], customers := [custS0], payments := [], now := 1, nextId := 3 } := by
  simp only [dbS0, submit_order, get_or_create_customer, dbInit, formA, newOrderOf,
    update_customer_stats, List.find?, List.filter, List.map, List.max?, List.foldl,
    List.length, List.sum_cons, List.sum_nil, calcA, odS0, custS0]
  norm_num

lemma dbS1_eq : dbS1 =
    { orders := [odS1], customers := [custS0], payments := [payS1], now := 2, nextId := 4 } := by
  unfold dbS1
  rw [dbS0_eq]
  simp only [add_payment, List.find?, List.map, odS0, odS1, payS1]
  norm_num

lemma dbS2_eq : dbS2 =
    { orders := [odS2], customers := [custS0], payments := [payS1, payS2],
      now := 3, nextId := 5 } := by
  unfold dbS2
  rw [dbS1_eq]
  simp only [add_payment, List.find?, List.map, odS0, odS1, odS2, payS1, payS2]
  norm_num

lemma db3_eq : db3 =
    { orders := [odS0, odB3, odE4], customers := [custW], payments := [],
      now := 3, nextId := 5 } := by
  have h2 : submit_order dbS0 formB =
      { orders := [odS0, odB3]
        customers := [{ custS0 with
                          total_orders := 2
                          total_spent := 3000
                          last_order_date := some 1 }]
        payments := []
        now := 2
        nextId := 4 } := by
    rw [dbS0_eq]
    simp only [submit_order, get_or_create_customer, formB, formA, newOrderOf,
      update_customer_stats, List.find?, List.filter, List.map, List.max?, List.foldl,
      List.length, List.sum_cons, List.sum_nil, calcB, odS0, odB3, custS0]
    norm_num
  unfold db3
  rw [h2]
  simp only [submit_order, get_or_create_customer, formE, formA, newOrderOf,
    update_customer_stats, List.find?, List.filter, List.map, List.max?, List.foldl,
    List.length, List.sum_cons, List.sum_nil, calcE, odS0, odB3, odE4, custS0, custW]
  norm_num

lemma dbB_eq : dbB =
    { orders := [odB], customers := [custS0], payments := [], now := 2, nextId := 3 } := by
  unfold dbB
  rw [dbS0_eq]
  simp only [update_order, List.find?, List.map, formB, formA, calcB, odS0, odB]
  norm_num

lemma dbZ_eq : dbZ =
    { orders := [odZ], customers := [custZ], payments := [], now := 1, nextId := 3 } := by
  simp only [dbZ, submit_order, get_or_create_customer, dbInit, formZero, formA, newOrderOf,
    update_customer_stats, List.find?, List.filter, List.map, List.max?, List.foldl,
    List.length, List.sum_cons, List.sum_nil, calcZ, odS0, odZ, custS0, custZ]
  norm_num

/-! Generic lemmas about the keyed-update pattern `SQL UPDATE ... WHERE` that
every handler uses: the first row found for a key is updated in place. -/

lemma find?_map_update (p : Order → Bool) (upd : Order → Order)
    (hp : ∀ o, p (upd o) = p o) :
    ∀ (l : List Order) (od : Order), l.find? p = some od →
      (l.map fun o => if p o then upd o else o).find? p = some (upd od) := by
  intro l
  induction l with
  | nil => intro od h; simp at h
  | cons a tl ih =>
    intro od h
    by_cases ha : p a
    · rw [List.find?_cons_of_pos _ ha] at h
      obtain rfl : a = od := Option.some.inj h
      simp only [List.map_cons, if_pos ha]
      exact List.find?_cons_of_pos _ (by rw [hp]; exact ha)
    · rw [List.find?_cons_of_neg _ ha] at h
      simp only [List.map_cons, if_neg ha]
      rw [List.find?_cons_of_neg _ ha]
      exact ih od h

lemma mem_map_update (p : Order → Bool) (upd : Order → Order) (l : List Order) (o : Order)
    (ho : o ∈ l.map fun x => if p x then upd x else x) :
    (∃ x, x ∈ l ∧ p x ∧ o = upd x) ∨ (∃ x, x ∈ l ∧ ¬ p x ∧ o = x) := by
  obtain ⟨x, hx, hxo⟩ := List.mem_map.mp ho
  by_cases hpx : p x
  · exact Or.inl ⟨x, hx, hpx, by rw [← hxo, if_pos hpx]⟩
  · exact Or.inr ⟨x, hx, hpx, by rw [← hxo, if_neg hpx]⟩

lemma map_update_ids (p : Order → Bool) (upd : Order → Order)
    (hid : ∀ o, (upd o).order_id = o.order_id) (l : List Order) :
    (l.map fun o => if p o then upd o else o).map (fun o => o.order_id) =
      l.map (fun o => o.order_id) := by
  rw [List.map_map]
  apply List.map_congr_left
  intro x _
  by_cases hpx : p x
  · simp only [Function.comp, if_pos hpx, hid]
  · simp only [Function.comp, if_neg hpx]

lemma eq_of_nodup_ids (l : List Order) (h : (l.map fun o => o.order_id).Nodup)
    (x y : Order) (hx : x ∈ l) (hy : y ∈ l) (hid : x.order_id = y.order_id) : x = y :=
  List.inj_on_of_nodup_map h hx hy hid

lemma dbC1_eq : dbC1 =
    { orders := [odC1], customers := [custC1], payments := [], now := 1, nextId := 3 } := by
  simp only [dbC1, submit_order, get_or_create_customer, dbInit, formC1, formA, newOrderOf,
    update_customer_stats, List.find?, List.filter, List.map, List.max?, List.foldl,
    List.length, List.sum_cons, List.sum_nil, calcC1, odS0, odC1, custS0, custC1]
  norm_num

/-! Characterization of `add_payment` on an existing order. -/

lemma add_payment_payments (db : DB) (oid : Nat) (amount : ℚ) (m r n : String) (od : Order)
    (hfind : db.orders.find? (fun o => o.order_id == oid) = some od) :
    (add_payment db oid amount m r n).payments =
      db.payments ++
        [{ payment_id := db.nextId
           order_id := oid
           customer_id := od.customer_id
           amount := amount
           payment_date := db.now
           payment_method := m
           reference_number := r
           notes := n
           created_at := db.now }] := by
  unfold add_payment
  rw [hfind]

lemma add_payment_find (db : DB) (oid : Nat) (amount : ℚ) (m r n : String) (od : Order)
    (hfind : db.orders.find? (fun o => o.order_id == oid) = some od) :
    (add_payment db oid amount m r n).orders.find? (fun o => o.order_id == oid) =
      some { od with
              advance_paid := od.advance_paid + amount
              balance_due := od.total_cost - (od.advance_paid + amount)
              payment_status :=
                if od.total_cost - (od.advance_paid + amount) ≤ 0 then "Paid"
                else "Partially Paid"
              updated_at := some db.now } := by
  unfold add_payment
  rw [hfind]
  exact find?_map_update (fun o => o.order_id == oid)
    (fun o => { o with
                  advance_paid := od.advance_paid + amount
                  balance_due := od.total_cost - (od.advance_paid + amount)
                  payment_status :=
                    if od.total_cost - (od.advance_paid + amount) ≤ 0 then "Paid"
                    else "Partially Paid"
                  updated_at := some db.now })
    (fun o => rfl) db.orders od hfind

lemma add_payment_orders_mem (db : DB) (oid : Nat) (amount : ℚ) (m r n : String) (od : Order)
    (hfind : db.orders.find? (fun o => o.order_id == oid) = some od) :
    ∀ o ∈ (add_payment db oid amount m r n).orders, o.order_id = oid →
      o.advance_paid = od.advance_paid + amount ∧
      o.balance_due = od.total_cost - (od.advance_paid + amount) ∧
      o.payment_status =
        (if od.total_cost - (od.advance_paid + amount) ≤ 0 then "Paid"
         else "Partially Paid") := by
  unfold add_payment
  rw [hfind]
  intro o ho hid
  rcases mem_map_update (fun o => o.order_id == oid)
      (fun o => { o with
                    advance_paid := od.advance_paid + amount
                    balance_due := od.total_cost - (od.advance_paid + amount)
                    payment_status :=
                      if od.total_cost - (od.advance_paid + amount) ≤ 0 then "Paid"
                      else "Partially Paid"
                    updated_at := some db.now })
      db.orders o ho with ⟨x, _, _, rfl⟩ | ⟨x, _, hpx, rfl⟩
  · exact ⟨rfl, rfl, rfl⟩
  · exact absurd (by simpa using hid) hpx

/-! Equational forms of the keyed-update handlers, for an existing order. -/

lemma update_order_none (db : DB) (oid : Nat) (f : OrderForm)
    (h : db.orders.find? (fun o => o.order_id == oid) = none) :
    update_order db oid f = db := by
  unfold update_order
  rw [h]

lemma update_order_eq (db : DB) (oid : Nat) (f : OrderForm) (od : Order)
    (hfind : db.orders.find? (fun o => o.order_id == oid) = some od) :
    update_order db oid f =
      { db with
          orders := db.orders.map fun o =>
            if o.order_id == oid then updateOrderRow db f od o else o
          now := db.now + 1 } := by
  unfold update_order updateOrderRow
  rw [hfind]

lemma add_payment_none (db : DB) (oid : Nat) (amount : ℚ) (m r n : String)
    (h : db.orders.find? (fun o => o.order_id == oid) = none) :
    add_payment db oid amount m r n = db := by
  unfold add_payment
  rw [h]

lemma add_payment_eq (db : DB) (oid : Nat) (amount : ℚ) (m r n : String) (od : Order)
    (hfind : db.orders.find? (fun o => o.order_id == oid) = some od) :
    add_payment db oid amount m r n =
      { db with
          payments := db.payments ++
            [{ payment_id := db.nextId
               order_id := oid
               customer_id := od.customer_id
               amount := amount
               payment_date := db.now
               payment_method := m
               reference_number := r
               notes := n
               created_at := db.now }]
          orders := db.orders.map fun o =>
            if o.order_id == oid then addPaymentRow db amount od o else o
          nextId := db.nextId + 1
          now := db.now + 1 } := by
  unfold add_payment addPaymentRow
  rw [hfind]

lemma admin_approve_none (db : DB) (oid : Nat)
    (h : db.orders.find? (fun o => o.order_id == oid) = none) :
    admin_approve_order db oid = db := by
  unfold admin_approve_order
  rw [h]

lemma admin_approve_eq (db : DB) (oid : Nat) (od : Order)
    (hfind : db.orders.find? (fun o => o.order_id == oid) = some od) :
    admin_approve_order db oid =
      { db with
          orders := db.orders.map fun o =>
            if o.order_id == oid then
              statusRow db (nextAfterOrderPlaced ((WORKFLOW_STEPS.lookup od.order_type).getD [])) o
            else o
          now := db.now + 1 } := by
  unfold admin_approve_order statusRow
  rw [hfind]

lemma update_status_eq (db : DB) (oid : Nat) (s : String) :
    update_status db oid s =
      { db with
          orders := db.orders.map fun o =>
            if o.order_id == oid then statusRow db s o else o
          now := db.now + 1 } := rfl

lemma admin_update_payment_status_eq (db : DB) (oid : Nat) (s : String) :
    admin_update_payment_status db oid s =
      { db with
          orders := db.orders.map fun o =>
            if o.order_id == oid then paymentStatusRow db s o else o
          now := db.now + 1 } := rfl

lemma update_order_find (db : DB) (oid : Nat) (f : OrderForm) (od : Order)
    (hfind : db.orders.find? (fun o => o.order_id == oid) = some od) :
    (update_order db oid f).orders.find? (fun o => o.order_id == oid) =
      some (updateOrderRow db f od od) := by
  rw [update_order_eq db oid f od hfind]
  exact find?_map_update (fun o => o.order_id == oid) (updateOrderRow db f od)
    (fun o => rfl) db.orders od hfind

lemma admin_approve_find (db : DB) (oid : Nat) (od : Order)
    (hfind : db.orders.find? (fun o => o.order_id == oid) = some od) :
    (admin_approve_order db oid).orders.find? (fun o => o.order_id == oid) =
      some (statusRow db (nextAfterOrderPlaced ((WORKFLOW_STEPS.lookup od.order_type).getD []))
        od) := by
  rw [admin_approve_eq db oid od hfind]
  exact find?_map_update (fun o => o.order_id == oid)
    (statusRow db (nextAfterOrderPlaced ((WORKFLOW_STEPS.lookup od.order_type).getD [])))
    (fun o => rfl) db.orders od hfind

/-! The approval step: the source's empty-list fallback computes the same
status as the spec's Material-Purchase fallback. -/

lemma nextAfter_nil : nextAfterOrderPlaced [] = "Processing" := rfl

lemma approve_eq_spec (ot : String) :
    nextAfterOrderPlaced ((WORKFLOW_STEPS.lookup ot).getD []) = approveStatusSpec ot := by
  unfold approveStatusSpec
  by_cases h1 : ot = "Material Purchase"
  · subst h1; rfl
  · by_cases h2 : ot = "Fencing Contract Job"
    · subst h2; rfl
    · have e1 : (ot == "Material Purchase") = false := beq_eq_false_iff_ne.mpr h1
      have e2 : (ot == "Fencing Contract Job") = false := beq_eq_false_iff_ne.mpr h2
      have hl : WORKFLOW_STEPS.lookup ot = none := by
        simp [WORKFLOW_STEPS, List.lookup, e1, e2]
      rw [hl]
      rfl

/-! Facts about `get_or_create_customer` and `submit_order` needed for the
reachability invariant. -/

lemma goc_orders (db : DB) (m n : String) :
    (get_or_create_customer db m n).1.orders = db.orders := by
  unfold get_or_create_customer
  cases db.customers.find? (fun c => c.mobile == m) <;> rfl

lemma goc_now (db : DB) (m n : String) :
    (get_or_create_customer db m n).1.now = db.now := by
  unfold get_or_create_customer
  cases db.customers.find? (fun c => c.mobile == m) <;> rfl

lemma goc_payments (db : DB) (m n : String) :
    (get_or_create_customer db m n).1.payments = db.payments := by
  unfold get_or_create_customer
  cases db.customers.find? (fun c => c.mobile == m) <;> rfl

lemma goc_nextId_le (db : DB) (m n : String) :
    db.nextId ≤ (get_or_create_customer db m n).1.nextId := by
  unfold get_or_create_customer
  cases db.customers.find? (fun c => c.mobile == m) with
  | none => exact Nat.le_succ _
  | some c => exact Nat.le_refl _

lemma submit_order_orders (db : DB) (f : OrderForm) :
    (submit_order db f).orders =
      db.orders ++ [newOrderOf (get_or_create_customer db f.mobile f.name).1 f
        (get_or_create_customer db f.mobile f.name).2] := by
  show (get_or_create_customer db f.mobile f.name).1.orders ++ _ = _
  rw [goc_orders]

lemma submit_order_nextId (db : DB) (f : OrderForm) :
    (submit_order db f).nextId = (get_or_create_customer db f.mobile f.name).1.nextId + 1 :=
  rfl

lemma submit_order_payments (db : DB) (f : OrderForm) :
    (submit_order db f).payments = db.payments := by
  show (get_or_create_customer db f.mobile f.name).1.payments = _
  rw [goc_payments]

lemma newOrderOf_id (db : DB) (f : OrderForm) (cid : Nat) :
    (newOrderOf db f cid).order_id = db.nextId := rfl

/-! Preservation of the store invariant along every handler. -/

lemma storeInv_init : StoreInv dbInit := by
  constructor
  · intro o ho
    simp [dbInit] at ho
  · simp [dbInit]

lemma finOk_newOrder (db : DB) (f : OrderForm) (cid : Nat) : FinOk (newOrderOf db f cid) := by
  constructor
  · show (calculate_cost f.sqrtAreaSqft f.acres f.product_type f.dimension f.order_type
      (some f.soil_type) f.no_of_units).2.2.2.1 =
      (calculate_cost f.sqrtAreaSqft f.acres f.product_type f.dimension f.order_type
        (some f.soil_type) f.no_of_units).2.2.2.1 - 0
    rw [sub_zero]
  · exact calculate_cost_close _ _ _ _ _ _ _

lemma storeInv_submit (db : DB) (f : OrderForm) (h : StoreInv db) :
    StoreInv (submit_order db f) := by
  obtain ⟨hids, hnodup⟩ := h
  have hord := submit_order_orders db f
  have hnext := submit_order_nextId db f
  have hle := goc_nextId_le db f.mobile f.name
  constructor
  · intro o ho
    rw [hord] at ho
    rcases List.mem_append.mp ho with hmem | hmem
    · obtain ⟨hlt, hfin⟩ := hids o hmem
      refine ⟨?_, hfin⟩
      rw [hnext]
      omega
    · rw [List.mem_singleton] at hmem
      subst hmem
      refine ⟨?_, finOk_newOrder _ _ _⟩
      rw [hnext, newOrderOf_id]
      omega
  · rw [hord, List.map_append, List.nodup_append]
    refine ⟨hnodup, by simp, ?_⟩
    intro a ha hb
    simp only [List.map_cons, List.map_nil, List.mem_singleton] at hb
    rw [hb, newOrderOf_id] at ha
    obtain ⟨o, hmem, hid⟩ := List.mem_map.mp ha
    have := (hids o hmem).1
    omega

lemma storeInv_update (db : DB) (oid : Nat) (f : OrderForm) (h : StoreInv db) :
    StoreInv (update_order db oid f) := by
  cases hfind : db.orders.find? (fun o => o.order_id == oid) with
  | none => rw [update_order_none db oid f hfind]; exact h
  | some od =>
    obtain ⟨hids, hnodup⟩ := h
    have hodmem : od ∈ db.orders := List.mem_of_find?_eq_some hfind
    have hodid : od.order_id = oid := by simpa using List.find?_some hfind
    rw [update_order_eq db oid f od hfind]
    constructor
    · intro o ho
      rcases mem_map_update (fun x => x.order_id == oid) (updateOrderRow db f od) db.orders o ho
        with ⟨x, hx, hpx, rfl⟩ | ⟨x, hx, _, rfl⟩
      · have hxid : x.order_id = oid := by simpa using hpx
        have hxod : x = od := eq_of_nodup_ids db.orders hnodup x od hx hodmem (by rw [hxid, hodid])
        rw [hxod]
        exact ⟨(hids od hodmem).1, rfl, calculate_cost_close _ _ _ _ _ _ _⟩
      · exact hids o hx
    · show ((db.orders.map _).map _).Nodup
      rw [map_update_ids (fun x => x.order_id == oid) (updateOrderRow db f od)
        (fun o => rfl) db.orders]
      exact hnodup

lemma storeInv_pay (db : DB) (oid : Nat) (amount : ℚ) (m r n : String) (h : StoreInv db) :
    StoreInv (add_payment db oid amount m r n) := by
  cases hfind : db.orders.find? (fun o => o.order_id == oid) with
  | none => rw [add_payment_none db oid amount m r n hfind]; exact h
  | some od =>
    obtain ⟨hids, hnodup⟩ := h
    have hodmem : od ∈ db.orders := List.mem_of_find?_eq_some hfind
    have hodid : od.order_id = oid := by simpa using List.find?_some hfind
    rw [add_payment_eq db oid amount m r n od hfind]
    constructor
    · intro o ho
      rcases mem_map_update (fun x => x.order_id == oid) (addPaymentRow db amount od) db.orders o ho
        with ⟨x, hx, hpx, rfl⟩ | ⟨x, hx, _, rfl⟩
      · have hxid : x.order_id = oid := by simpa using hpx
        have hxod : x = od := eq_of_nodup_ids db.orders hnodup x od hx hodmem (by rw [hxid, hodid])
        rw [hxod]
        have h1 := (hids od hodmem).1
        refine ⟨?_, rfl, ((hids od hodmem).2).2⟩
        show od.order_id < db.nextId + 1
        omega
      · have h1 := (hids o hx).1
        refine ⟨?_, (hids o hx).2⟩
        show o.order_id < db.nextId + 1
        omega
    · show ((db.orders.map _).map _).Nodup
      rw [map_update_ids (fun x => x.order_id == oid) (addPaymentRow db amount od)
        (fun o => rfl) db.orders]
      exact hnodup

lemma storeInv_status (db : DB) (oid : Nat) (s : String) (h : StoreInv db) :
    StoreInv (update_status db oid s) := by
  obtain ⟨hids, hnodup⟩ := h
  rw [update_status_eq db oid s]
  constructor
  · intro o ho
    rcases mem_map_update (fun x => x.order_id == oid) (statusRow db s) db.orders o ho
      with ⟨x, hx, _, rfl⟩ | ⟨x, hx, _, rfl⟩
    · exact hids x hx
    · exact hids o hx
  · show ((db.orders.map _).map _).Nodup
    rw [map_update_ids (fun x => x.order_id == oid) (statusRow db s) (fun o => rfl) db.orders]
    exact hnodup

lemma storeInv_approve (db : DB) (oid : Nat) (h : StoreInv db) :
    StoreInv (admin_approve_order db oid) := by
  cases hfind : db.orders.find? (fun o => o.order_id == oid) with
  | none => rw [admin_approve_none db oid hfind]; exact h
  | some od =>
    obtain ⟨hids, hnodup⟩ := h
    rw [admin_approve_eq db oid od hfind]
    constructor
    · intro o ho
      rcases mem_map_update (fun x => x.order_id == oid)
        (statusRow db (nextAfterOrderPlaced ((WORKFLOW_STEPS.lookup od.order_type).getD [])))
        db.orders o ho with ⟨x, hx, _, rfl⟩ | ⟨x, hx, _, rfl⟩
      · exact hids x hx
      · exact hids o hx
    · show ((db.orders.map _).map _).Nodup
      rw [map_update_ids (fun x => x.order_id == oid)
        (statusRow db (nextAfterOrderPlaced ((WORKFLOW_STEPS.lookup od.order_type).getD [])))
        (fun o => rfl) db.orders]
      exact hnodup

lemma storeInv_ups (db : DB) (oid : Nat) (s : String) (h : StoreInv db) :
    StoreInv (admin_update_payment_status db oid s) := by
  obtain ⟨hids, hnodup⟩ := h
  rw [admin_update_payment_status_eq db oid s]
  constructor
  · intro o ho
    rcases mem_map_update (fun x => x.order_id == oid) (paymentStatusRow db s) db.orders o ho
      with ⟨x, hx, _, rfl⟩ | ⟨x, hx, _, rfl⟩
    · exact hids x hx
    · exact hids o hx
  · show ((db.orders.map _).map _).Nodup
    rw [map_update_ids (fun x => x.order_id == oid) (paymentStatusRow db s)
      (fun o => rfl) db.orders]
    exact hnodup

lemma reachable_storeInv (db : DB) (h : Reachable db) : StoreInv db := by
  induction h with
  | init => exact storeInv_init
  | submit db f _ ih => exact storeInv_submit db f ih
  | update db oid f _ ih => exact storeInv_update db oid f ih
  | pay db oid amount m r n _ ih => exact storeInv_pay db oid amount m r n ih
  | setStatus db oid s _ ih => exact storeInv_status db oid s ih
  | approve db oid _ ih => exact storeInv_approve db oid ih
  | setPaymentStatus db oid s _ ih => exact storeInv_ups db oid s ih

/-! Further concrete-state facts used by witnesses and counterexamples. -/

lemma find_dbS0 : dbS0.orders.find? (fun o => o.order_id == 2) = some odS0 := by
  rw [dbS0_eq]
  rfl

lemma find_dbS1 : dbS1.orders.find? (fun o => o.order_id == 2) = some odS1 := by
  rw [dbS1_eq]
  rfl

lemma dbP0_eq : dbP0 =
    { orders := [odP0], customers := [custS0], payments := [payP0], now := 2, nextId := 4 } := by
  unfold dbP0
  rw [dbS0_eq]
  simp only [add_payment, List.find?, List.map, odS0, odP0, payP0]
  norm_num

lemma dbNeg_eq : dbNeg =
    { orders := [odNeg], customers := [custS0], payments := [payNeg], now := 2, nextId := 4 } := by
  unfold dbNeg
  rw [dbS0_eq]
  simp only [add_payment, List.find?, List.map, odS0, odNeg, payNeg]
  norm_num

lemma ucs_db3 : update_customer_stats db3 1 = db3 := by
  rw [db3_eq]
  simp only [update_customer_stats, List.filter, List.map, List.max?, List.foldl,
    List.length, List.sum_cons, List.sum_nil, odS0, odB3, odE4, custW, custS0]
  norm_num

/-! Characterization of `update_customer_stats`. -/

lemma update_customer_stats_orders (db : DB) (cid : Nat) :
    (update_customer_stats db cid).orders = db.orders := rfl

lemma update_customer_stats_payments (db : DB) (cid : Nat) :
    (update_customer_stats db cid).payments = db.payments := rfl

lemma update_customer_stats_mem (db : DB) (cid : Nat) :
    ∀ c ∈ (update_customer_stats db cid).customers,
      (c.customer_id = cid →
        c.total_orders = (db.orders.filter fun o => o.customer_id == cid).length ∧
        c.total_spent =
          ((db.orders.filter fun o => o.customer_id == cid).map fun o => o.total_cost).sum ∧
        c.last_order_date =
          ((db.orders.filter fun o => o.customer_id == cid).map fun o => o.created_at).max?) ∧
      (c.customer_id ≠ cid → c ∈ db.customers) := by
  intro c hc
  obtain ⟨x, hx, hxc⟩ := List.mem_map.mp hc
  by_cases hpx : (x.customer_id == cid) = true
  · rw [if_pos hpx] at hxc
    have hcid : c.customer_id = cid := by rw [← hxc]; simpa using hpx
    constructor
    · intro _
      rw [← hxc]
      exact ⟨rfl, rfl, rfl⟩
    · intro hne
      exact absurd hcid hne
  · rw [if_neg hpx] at hxc
    rw [← hxc]
    constructor
    · intro hcx
      exact absurd (by simpa using hcx) hpx
    · intro _
      exact hx

/-! Claim theorems. -/

/-- C1, counterexample: the claim `total_cost = material_cost +
installation_cost + transport_cost` over the stored (rounded) fields fails on
a reachable state: a Fencing Contract Job of 0.100225 units at the default
rate stores components 12.03 and 3.01 but total 15.03, not 15.04. -/
theorem c1_counterexample :
    ¬ (∀ db : DB, Reachable db → ∀ o ∈ db.orders,
        o.total_cost = o.material_cost + o.installation_cost + o.transport_cost ∧
        o.balance_due = o.total_cost - o.advance_paid) := by
  intro h
  have hr : Reachable dbC1 := Reachable.submit dbInit formC1 Reachable.init
  have hx := (h dbC1 hr odC1 (by rw [dbC1_eq]; exact List.mem_singleton_self _)).1
  norm_num [odC1, odS0] at hx

/-- C1, amended: in every reachable state every order satisfies
`balance_due = total_cost - amount_paid` exactly, while the stored
`total_cost` (the rounding of the unrounded sum) agrees with the sum of the
stored rounded components only to within one cent. -/
theorem c1_financial_reconciliation (db : DB) (h : Reachable db) :
    ∀ o ∈ db.orders,
      o.balance_due = o.total_cost - o.advance_paid ∧
      |o.total_cost - (o.material_cost + o.installation_cost + o.transport_cost)| ≤ 1/100 := by
  intro o ho
  exact ((reachable_storeInv db h).1 o ho).2

/-- Witness for C1 at the reachable one-order state `dbS0`. -/
theorem c1_financial_reconciliation_witness :
    odS0 ∈ dbS0.orders ∧
    (odS0.balance_due = odS0.total_cost - odS0.advance_paid ∧
     |odS0.total_cost - (odS0.material_cost + odS0.installation_cost +
       odS0.transport_cost)| ≤ 1/100) := by
  have hmem : odS0 ∈ dbS0.orders := by rw [dbS0_eq]; exact List.mem_singleton_self _
  exact ⟨hmem, c1_financial_reconciliation dbS0
    (Reachable.submit dbInit formA Reachable.init) odS0 hmem⟩

/-- C2, counterexample: a freshly created zero-cost order has
`balance_due = 0 ≤ 0` but `payment_status = "Unpaid"`, so the claimed
biconditional `Paid iff balance_due ≤ 0` fails at that point in time. -/
theorem c2_counterexample :
    ¬ (∀ db : DB, Reachable db → ∀ o ∈ db.orders,
        (o.payment_status = "Paid" ↔ o.balance_due ≤ 0)) := by
  intro h
  have hr : Reachable dbZ := Reachable.submit dbInit formZero Reachable.init
  have hx := h dbZ hr odZ (by rw [dbZ_eq]; exact List.mem_singleton_self _)
  have hpaid : odZ.payment_status = "Paid" := hx.mpr (by norm_num [odZ, odS0])
  exact absurd hpaid (by decide)

/-- C2, amended: the biconditional holds immediately after `add_payment` on
an existing order — the updated row is `Paid` iff its balance is ≤ 0 and
`Partially Paid` iff its balance is positive. Order creation instead always
stamps `Unpaid` (even with a zero balance), and `update_order` and the admin
override write `payment_status` without recomputation. -/
theorem c2_paid_iff_after_payment (db : DB) (oid : Nat) (amount : ℚ) (m r n : String)
    (od : Order) (hfind : db.orders.find? (fun o => o.order_id == oid) = some od) :
    ∀ o ∈ (add_payment db oid amount m r n).orders, o.order_id = oid →
      (o.payment_status = "Paid" ↔ o.balance_due ≤ 0) ∧
      (o.payment_status = "Partially Paid" ↔ 0 < o.balance_due) := by
  intro o ho hid
  obtain ⟨_, hbal, hst⟩ := add_payment_orders_mem db oid amount m r n od hfind o ho hid
  rw [hst, hbal]
  split_ifs with hb
  · exact ⟨iff_of_true rfl hb, iff_of_false (by decide) (not_lt.mpr hb)⟩
  · exact ⟨iff_of_false (by decide) hb, iff_of_true rfl (not_le.mp hb)⟩

/-- Witness for C2: the half-paid order of `dbS1` is `Partially Paid` with a
positive balance. -/
theorem c2_paid_iff_after_payment_witness :
    (dbS0.orders.find? (fun o => o.order_id == 2) = some odS0) ∧
    odS1 ∈ (add_payment dbS0 2 500 "Cash" "" "").orders ∧ odS1.order_id = 2 ∧
    ((odS1.payment_status = "Paid" ↔ odS1.balance_due ≤ 0) ∧
     (odS1.payment_status = "Partially Paid" ↔ 0 < odS1.balance_due)) := by
  have hmem : odS1 ∈ (add_payment dbS0 2 500 "Cash" "" "").orders := by
    rw [show add_payment dbS0 2 500 "Cash" "" "" = dbS1 from rfl, dbS1_eq]
    exact List.mem_singleton_self _
  exact ⟨find_dbS0, hmem, rfl,
    c2_paid_iff_after_payment dbS0 2 500 "Cash" "" "" odS0 find_dbS0 odS1 hmem rfl⟩

/-- C3: `add_payment` on an existing order, for a positive amount on a row
with non-negative prior payments, appends exactly one payment row dated at
invocation time and updates `amount_paid` to prior + amount, `balance_due`
to `total_cost` minus the new amount, and `payment_status` per the ledger
invariant, with no cap on over-payment; in particular payments of 500 and
700 against a 1000-rupee order leave `amount_paid = 1200`,
`balance_due = -200`, `payment_status = "Paid"`. -/
theorem c3_record_payment :
    (∀ (db : DB) (oid : Nat) (amount : ℚ) (m r n : String) (od : Order),
      db.orders.find? (fun o => o.order_id == oid) = some od →
      0 < amount → 0 ≤ od.advance_paid →
      (add_payment db oid amount m r n).payments =
        db.payments ++ [⟨db.nextId, oid, od.customer_id, amount, db.now, m, r, n, db.now⟩] ∧
      ∃ od', (add_payment db oid amount m r n).orders.find? (fun o => o.order_id == oid) =
          some od' ∧
        od'.advance_paid = od.advance_paid + amount ∧
        od'.total_cost = od.total_cost ∧
        od'.balance_due = od.total_cost - (od.advance_paid + amount) ∧
        (od'.payment_status = "Paid" ↔ od'.balance_due ≤ 0) ∧
        (od'.payment_status = "Partially Paid" ↔
          0 < od'.advance_paid ∧ od'.advance_paid < od'.total_cost) ∧
        od'.payment_status ≠ "Unpaid") ∧
    (dbS2.orders.find? (fun o => o.order_id == 2) = some odS2 ∧
      odS2.advance_paid = 1200 ∧ odS2.balance_due = -200 ∧ odS2.payment_status = "Paid") := by
  constructor
  · intro db oid amount m r n od hfind hpos hprior
    refine ⟨add_payment_payments db oid amount m r n od hfind,
      addPaymentRow db amount od od, add_payment_find db oid amount m r n od hfind,
      rfl, rfl, rfl, ?_, ?_, ?_⟩
    · show (if od.total_cost - (od.advance_paid + amount) ≤ 0 then "Paid"
        else "Partially Paid") = "Paid" ↔ od.total_cost - (od.advance_paid + amount) ≤ 0
      split_ifs with hb
      · exact iff_of_true rfl hb
      · exact iff_of_false (by decide) hb
    · show (if od.total_cost - (od.advance_paid + amount) ≤ 0 then "Paid"
        else "Partially Paid") = "Partially Paid" ↔
        0 < od.advance_paid + amount ∧ od.advance_paid + amount < od.total_cost
      split_ifs with hb
      · refine iff_of_false (by decide) ?_
        intro ⟨_, hlt⟩
        linarith
      · exact iff_of_true rfl ⟨by linarith, by linarith [not_le.mp hb]⟩
    · show (if od.total_cost - (od.advance_paid + amount) ≤ 0 then "Paid"
        else "Partially Paid") ≠ "Unpaid"
      split_ifs <;> decide
  · refine ⟨?_, rfl, rfl, rfl⟩
    rw [dbS2_eq]
    rfl

/-- Witness for C3: the second payment of 700 on the half-paid state `dbS1`. -/
theorem c3_record_payment_witness :
    (dbS1.orders.find? (fun o => o.order_id == 2) = some odS1) ∧ (0 : ℚ) < 700 ∧
    (0 : ℚ) ≤ odS1.advance_paid ∧
    (add_payment dbS1 2 700 "UPI" "" "").payments =
      dbS1.payments ++ [⟨dbS1.nextId, 2, odS1.customer_id, 700, dbS1.now, "UPI", "", "",
        dbS1.now⟩] := by
  refine ⟨find_dbS1, by norm_num, by norm_num [odS1, odS0], ?_⟩
  exact (c3_record_payment.1 dbS1 2 700 "UPI" "" "" odS1 find_dbS1 (by norm_num)
    (by norm_num [odS1, odS0])).1

/-- C4, counterexample: `add_payment` with the non-positive amount -100 on an
existing order does not abort: it inserts a payment row and changes the
order's `amount_paid`, `balance_due` and `payment_status`. -/
theorem c4_counterexample :
    ¬ ((add_payment dbS0 2 (-100) "Cash" "" "").payments = dbS0.payments ∧
       ∀ o ∈ (add_payment dbS0 2 (-100) "Cash" "" "").orders,
         o.advance_paid = 0 ∧ o.balance_due = 1000 ∧ o.payment_status = "Unpaid") := by
  intro ⟨hpay, _⟩
  rw [show add_payment dbS0 2 (-100) "Cash" "" "" = dbNeg from rfl, dbNeg_eq, dbS0_eq] at hpay
  simp at hpay

/-- C4, amended: `add_payment` applies no validation to the amount: a call
with a non-positive amount on an existing order still inserts the payment
row and updates `amount_paid`, `balance_due` and `payment_status` by the
usual formulas. -/
theorem c4_no_amount_validation (db : DB) (oid : Nat) (amount : ℚ) (m r n : String)
    (od : Order) (hfind : db.orders.find? (fun o => o.order_id == oid) = some od)
    (hle : amount ≤ 0) :
    (add_payment db oid amount m r n).payments =
      db.payments ++ [⟨db.nextId, oid, od.customer_id, amount, db.now, m, r, n, db.now⟩] ∧
    (add_payment db oid amount m r n).orders.find? (fun o => o.order_id == oid) =
      some (addPaymentRow db amount od od) ∧
    (addPaymentRow db amount od od).advance_paid = od.advance_paid + amount ∧
    (addPaymentRow db amount od od).balance_due = od.total_cost - (od.advance_paid + amount) ∧
    (addPaymentRow db amount od od).payment_status =
      (if od.total_cost - (od.advance_paid + amount) ≤ 0 then "Paid"
       else "Partially Paid") :=
  ⟨add_payment_payments db oid amount m r n od hfind,
   add_payment_find db oid amount m r n od hfind, rfl, rfl, rfl⟩

/-- Witness for C4 (amended): the -100 payment against `dbS0` lands as a row
and drives `amount_paid` to -100. -/
theorem c4_no_amount_validation_witness :
    ((-100 : ℚ) ≤ 0) ∧ (dbS0.orders.find? (fun o => o.order_id == 2) = some odS0) ∧
    (add_payment dbS0 2 (-100) "Cash" "" "").payments = dbS0.payments ++ [payNeg] ∧
    (add_payment dbS0 2 (-100) "Cash" "" "").orders.find? (fun o => o.order_id == 2) =
      some odNeg := by
  refine ⟨by norm_num, find_dbS0, ?_, ?_⟩
  · have h := (c4_no_amount_validation dbS0 2 (-100) "Cash" "" "" odS0 find_dbS0
      (by norm_num)).1
    rw [h, dbS0_eq]
    rfl
  · rw [show add_payment dbS0 2 (-100) "Cash" "" "" = dbNeg from rfl, dbNeg_eq]
    rfl

/-- C9: whatever the amount (zero included), after `add_payment` on an
existing order the updated row's `payment_status` is `Paid` or
`Partially Paid` — never `Unpaid`. -/
theorem c9_payment_never_unpaid (db : DB) (oid : Nat) (amount : ℚ) (m r n : String)
    (od : Order) (hfind : db.orders.find? (fun o => o.order_id == oid) = some od) :
    ∀ o ∈ (add_payment db oid amount m r n).orders, o.order_id = oid →
      (o.payment_status = "Paid" ∨ o.payment_status = "Partially Paid") ∧
      o.payment_status ≠ "Unpaid" := by
  intro o ho hid
  obtain ⟨_, _, hst⟩ := add_payment_orders_mem db oid amount m r n od hfind o ho hid
  rw [hst]
  split_ifs with hb
  · exact ⟨Or.inl rfl, by decide⟩
  · exact ⟨Or.inr rfl, by decide⟩

/-- Witness for C9: a zero-amount payment on the fresh 1000-rupee order
yields `Partially Paid` even though `amount_paid` is still 0. -/
theorem c9_payment_never_unpaid_witness :
    (dbS0.orders.find? (fun o => o.order_id == 2) = some odS0) ∧
    odP0 ∈ (add_payment dbS0 2 0 "Cash" "" "").orders ∧ odP0.order_id = 2 ∧
    ((odP0.payment_status = "Paid" ∨ odP0.payment_status = "Partially Paid") ∧
     odP0.payment_status ≠ "Unpaid") ∧
    odP0.advance_paid = 0 ∧ odP0.total_cost = 1000 := by
  have hmem : odP0 ∈ (add_payment dbS0 2 0 "Cash" "" "").orders := by
    rw [show add_payment dbS0 2 0 "Cash" "" "" = dbP0 from rfl, dbP0_eq]
    exact List.mem_singleton_self _
  exact ⟨find_dbS0, hmem, rfl,
    c9_payment_never_unpaid dbS0 2 0 "Cash" "" "" odS0 find_dbS0 odP0 hmem rfl, rfl, rfl⟩

/-- C5: `calculate_cost` implements the documented pricing algorithm: the
quantity measure is `4 * sqrt(acres * 43560) * 1.05` when acres are positive
(the hypotheses name the spec's step quantities and tie the oracle input to
the real square root), else a positive unit count verbatim, else 0; the rate
comes from the product table with default 120; installation applies only to
Fencing Contract Jobs at 25% times the soil multiplier; transport is 0; the
advance is 40% for Material Purchase and 55% otherwise; every component is
rounded to two decimals, and with no quantity every cost is 0. -/
theorem c5_calculate_cost_spec (side acres units : ℚ) (pt dim ot : String)
    (soil : Option String) (q rate mc ic tc adv : ℚ)
    (hq : q = if 0 < acres then 4 * side * 1.05 else if 0 < units then units else 0)
    (hrate : rate = (PRODUCT_RATES.lookup (pt, dim)).getD 120)
    (hmc : mc = q * rate)
    (hic : ic = if ot = "Fencing Contract Job" then mc * 0.25 * soilMultiplier soil else 0)
    (htc : tc = 0)
    (hadv : adv = if ot = "Material Purchase" then (mc + ic + tc) * 0.40
      else (mc + ic + tc) * 0.55)
    (hsq : (side : ℝ) = Real.sqrt ((acres * 43560 : ℚ) : ℝ)) :
    calculate_cost side acres pt dim ot soil units =
      (round2 mc, round2 ic, round2 tc, round2 (mc + ic + tc), round2 adv) ∧
    (0 < acres → ((q : ℚ) : ℝ) = 4 * Real.sqrt ((acres * 43560 : ℚ) : ℝ) * 1.05) ∧
    (¬ 0 < acres → ¬ 0 < units →
      calculate_cost side acres pt dim ot soil units = (0, 0, 0, 0, 0)) := by
  subst hq hrate hmc hic htc hadv
  refine ⟨rfl, ?_, ?_⟩
  · intro ha
    rw [if_pos ha]
    push_cast
    rw [hsq]
    norm_cast
  · intro ha hu
    simp only [calculate_cost, if_neg ha, if_neg hu]
    norm_num [round2_zero, ite_self]

/-- Witness for C5: one acre-driven Fencing Contract Job instance with an
exactly representable square root (`acres * 43560 = 100`, side 10). -/
theorem c5_calculate_cost_spec_witness :
    ((10 : ℚ) : ℝ) = Real.sqrt (((5/2178 : ℚ) * 43560 : ℚ) : ℝ) ∧
    calculate_cost 10 (5/2178) "Chain Link" "4ft / 12 Gauge" "Fencing Contract Job"
      (some "Clay") 0 = (3990, 1197, 0, 5187, 57057/20) := by
  have hsq : ((10 : ℚ) : ℝ) = Real.sqrt (((5/2178 : ℚ) * 43560 : ℚ) : ℝ) := by
    have h1 : (((5/2178 : ℚ) * 43560 : ℚ) : ℝ) = 100 := by norm_num
    rw [h1, show (100 : ℝ) = 10 ^ 2 by norm_num,
      Real.sqrt_sq (by norm_num : (0 : ℝ) ≤ 10)]
    norm_num
  refine ⟨hsq, ?_⟩
  have hFM : ("Fencing Contract Job" = "Material Purchase") = False := by simp
  have h := (c5_calculate_cost_spec 10 (5/2178) 0 "Chain Link" "4ft / 12 Gauge"
    "Fencing Contract Job" (some "Clay") 42 95 3990 1197 0 (57057/20)
    (by norm_num) rfl (by norm_num) (by norm_num [soil_clay]) rfl
    (by simp only [hFM, if_false]; norm_num) hsq).1
  rw [h]
  have r1 : round2 (3990 : ℚ) = 3990 := round2_of_cents _ 399000 (by norm_num)
  have r2 : round2 (1197 : ℚ) = 1197 := round2_of_cents _ 119700 (by norm_num)
  have r3 : round2 (5187 : ℚ) = 5187 := round2_of_cents _ 518700 (by norm_num)
  have r4 : round2 (57057/20 : ℚ) = 57057/20 := round2_of_cents _ 285285 (by norm_num)
  norm_num [r1, r2, r3, r4, round2_zero]

/-- C6, counterexample: after `update_order` reprices order 2 from 1000 to
2000, the owning customer's `total_spent` is still 1000 while the sum of the
customer's orders is 2000 — the Customer Aggregator was not triggered. -/
theorem c6_counterexample :
    ¬ (∀ c ∈ (update_order dbS0 2 formB).customers,
        c.total_spent = (((update_order dbS0 2 formB).orders.filter
          (fun o => o.customer_id == c.customer_id)).map (fun o => o.total_cost)).sum) := by
  intro h
  have hc : custS0 ∈ (update_order dbS0 2 formB).customers := by
    rw [show update_order dbS0 2 formB = dbB from rfl, dbB_eq]
    exact List.mem_singleton_self _
  have hx := h custS0 hc
  rw [show update_order dbS0 2 formB = dbB from rfl, dbB_eq] at hx
  norm_num [custS0, odB, odS0, List.filter] at hx

/-- C6, amended: on an existing order `update_order` re-invokes the pricing
calculator on the new specification, sets `balance_due` to the new total
minus the unchanged `amount_paid`, stamps `updated_at` — but does NOT
trigger the Customer Aggregator: the customers table is left untouched. -/
theorem c6_update_order_repricing (db : DB) (oid : Nat) (f : OrderForm) (od : Order)
    (hfind : db.orders.find? (fun o => o.order_id == oid) = some od) :
    (update_order db oid f).customers = db.customers ∧
    (update_order db oid f).payments = db.payments ∧
    ∃ od', (update_order db oid f).orders.find? (fun o => o.order_id == oid) = some od' ∧
      od'.material_cost = (calculate_cost f.sqrtAreaSqft f.acres f.product_type f.dimension
        f.order_type (some f.soil_type) f.no_of_units).1 ∧
      od'.installation_cost = (calculate_cost f.sqrtAreaSqft f.acres f.product_type
        f.dimension f.order_type (some f.soil_type) f.no_of_units).2.1 ∧
      od'.transport_cost = (calculate_cost f.sqrtAreaSqft f.acres f.product_type f.dimension
        f.order_type (some f.soil_type) f.no_of_units).2.2.1 ∧
      od'.total_cost = (calculate_cost f.sqrtAreaSqft f.acres f.product_type f.dimension
        f.order_type (some f.soil_type) f.no_of_units).2.2.2.1 ∧
      od'.advance_payment = (calculate_cost f.sqrtAreaSqft f.acres f.product_type f.dimension
        f.order_type (some f.soil_type) f.no_of_units).2.2.2.2 ∧
      od'.balance_due = od'.total_cost - od.advance_paid ∧
      od'.advance_paid = od.advance_paid ∧
      od'.updated_at = some db.now := by
  refine ⟨?_, ?_, updateOrderRow db f od od, update_order_find db oid f od hfind,
    rfl, rfl, rfl, rfl, rfl, rfl, rfl, rfl⟩
  · rw [update_order_eq db oid f od hfind]
  · rw [update_order_eq db oid f od hfind]

/-- Witness for C6 (amended): editing order 2 of `dbS0` leaves the customers
table exactly as it was. -/
theorem c6_update_order_repricing_witness :
    (dbS0.orders.find? (fun o => o.order_id == 2) = some odS0) ∧
    (update_order dbS0 2 formB).customers = dbS0.customers ∧
    (update_order dbS0 2 formB).payments = dbS0.payments := by
  obtain ⟨hc, hp, _⟩ := c6_update_order_repricing dbS0 2 formB odS0 find_dbS0
  exact ⟨find_dbS0, hc, hp⟩

/-- C7: the Customer Aggregator recompute overwrites the customer's
`total_orders` with the count of all their orders, `total_spent` with the
sum of `total_cost` over all their orders (no status filter, so Cancelled
orders are included), and `last_order_date` with the maximum creation
timestamp; three orders of 1000, 2000, 3000 for one mobile number give
`total_orders = 3` and `total_spent = 6000`. -/
theorem c7_customer_aggregates :
    (∀ (db : DB) (cid : Nat),
      (update_customer_stats db cid).orders = db.orders ∧
      (update_customer_stats db cid).payments = db.payments ∧
      ∀ c ∈ (update_customer_stats db cid).customers, c.customer_id = cid →
        c.total_orders = (db.orders.filter fun o => o.customer_id == cid).length ∧
        c.total_spent =
          ((db.orders.filter fun o => o.customer_id == cid).map fun o => o.total_cost).sum ∧
        c.last_order_date =
          ((db.orders.filter fun o => o.customer_id == cid).map
            fun o => o.created_at).max?) ∧
    (custW ∈ db3.customers ∧ custW.total_orders = 3 ∧ custW.total_spent = 6000) := by
  constructor
  · intro db cid
    refine ⟨rfl, rfl, ?_⟩
    intro c hc hcid
    exact (update_customer_stats_mem db cid c hc).1 hcid
  · exact ⟨by rw [db3_eq]; exact List.mem_singleton_self _, rfl, rfl⟩

/-- Witness for C7: the recompute applied to the three-order state `db3`. -/
theorem c7_customer_aggregates_witness :
    custW ∈ (update_customer_stats db3 1).customers ∧ custW.customer_id = 1 ∧
    (custW.total_orders = (db3.orders.filter fun o => o.customer_id == 1).length ∧
     custW.total_spent =
       ((db3.orders.filter fun o => o.customer_id == 1).map fun o => o.total_cost).sum ∧
     custW.last_order_date =
       ((db3.orders.filter fun o => o.customer_id == 1).map fun o => o.created_at).max?) := by
  have hmem : custW ∈ (update_customer_stats db3 1).customers := by
    rw [ucs_db3, db3_eq]
    exact List.mem_singleton_self _
  exact ⟨hmem, rfl, (c7_customer_aggregates.1 db3 1).2.2 custW hmem rfl⟩

/-- C8: `admin_approve_order` sets the order's status to the entry after
`"Order placed"` in its category workflow — `Processing` for Material
Purchase, `Site Survey` for Fencing Contract Job, and `Processing` for an
unrecognized category, observably the same as the claimed Material-Purchase
fallback (`approveStatusSpec`); and the advance step falls back to
`Processing` whenever `"Order placed"` is absent or last. -/
theorem c8_approve_order :
    (∀ (db : DB) (oid : Nat) (od : Order),
      db.orders.find? (fun o => o.order_id == oid) = some od →
      ∃ od', (admin_approve_order db oid).orders.find? (fun o => o.order_id == oid) =
          some od' ∧
        od'.status = approveStatusSpec od.order_type ∧
        (od.order_type = "Material Purchase" → od'.status = "Processing") ∧
        (od.order_type = "Fencing Contract Job" → od'.status = "Site Survey") ∧
        (od.order_type ≠ "Material Purchase" → od.order_type ≠ "Fencing Contract Job" →
          od'.status = "Processing")) ∧
    (∀ wf : List String, wf.findIdx? (fun s => s == "Order placed") = none →
      nextAfterOrderPlaced wf = "Processing") ∧
    (∀ (wf : List String) (i : Nat), wf.findIdx? (fun s => s == "Order placed") = some i →
      wf.length ≤ i + 1 → nextAfterOrderPlaced wf = "Processing") := by
  refine ⟨?_, ?_, ?_⟩
  · intro db oid od hfind
    refine ⟨statusRow db
      (nextAfterOrderPlaced ((WORKFLOW_STEPS.lookup od.order_type).getD [])) od,
      admin_approve_find db oid od hfind, approve_eq_spec od.order_type, ?_, ?_, ?_⟩
    · intro hmp
      show nextAfterOrderPlaced ((WORKFLOW_STEPS.lookup od.order_type).getD []) = "Processing"
      rw [hmp]
      rfl
    · intro hfc
      show nextAfterOrderPlaced ((WORKFLOW_STEPS.lookup od.order_type).getD []) = "Site Survey"
      rw [hfc]
      rfl
    · intro h1 h2
      have e1 : (od.order_type == "Material Purchase") = false := beq_eq_false_iff_ne.mpr h1
      have e2 : (od.order_type == "Fencing Contract Job") = false := beq_eq_false_iff_ne.mpr h2
      have hl : WORKFLOW_STEPS.lookup od.order_type = none := by
        simp [WORKFLOW_STEPS, List.lookup, e1, e2]
      show nextAfterOrderPlaced ((WORKFLOW_STEPS.lookup od.order_type).getD []) = "Processing"
      rw [hl]
      rfl
  · intro wf h
    unfold nextAfterOrderPlaced
    rw [h]
  · intro wf i h hlen
    unfold nextAfterOrderPlaced
    rw [h]
    show (wf[i + 1]?).getD "Processing" = "Processing"
    rw [List.getElem?_eq_none hlen]
    rfl

/-- Witness for C8: approving the Material Purchase order of `dbS0` moves it
to `Processing`. -/
theorem c8_approve_order_witness :
    (dbS0.orders.find? (fun o => o.order_id == 2) = some odS0) ∧
    ∃ od', (admin_approve_order dbS0 2).orders.find? (fun o => o.order_id == 2) = some od' ∧
      od'.status = "Processing" := by
  obtain ⟨od', hf, _, hmp, _, _⟩ := c8_approve_order.1 dbS0 2 odS0 find_dbS0
  exact ⟨find_dbS0, od', hf, hmp rfl⟩

/-- C10: on an existing order `update_order` leaves `advance_paid`,
`payment_status`, `created_at`, `created_by`, `customer_id` and `order_id`
untouched, overwriting only the specification, cost, balance, delivery,
status, notes and `updated_at` columns; `payment_status` is copied verbatim,
never recomputed. -/
theorem c10_update_order_frame (db : DB) (oid : Nat) (f : OrderForm) (od : Order)
    (hfind : db.orders.find? (fun o => o.order_id == oid) = some od) :
    ∃ od', (update_order db oid f).orders.find? (fun o => o.order_id == oid) = some od' ∧
      od'.advance_paid = od.advance_paid ∧
      od'.payment_status = od.payment_status ∧
      od'.created_at = od.created_at ∧
      od'.created_by = od.created_by ∧
      od'.customer_id = od.customer_id ∧
      od'.order_id = od.order_id ∧
      od'.acres = f.acres ∧
      od'.no_of_units = f.no_of_units ∧
      od'.soil_type = f.soil_type ∧
      od'.product_type = f.product_type ∧
      od'.product_material = f.product_material ∧
      od'.dimension = f.dimension ∧
      od'.order_type = f.order_type ∧
      od'.name = f.name ∧
      od'.mobile = f.mobile ∧
      od'.delivery_date = f.delivery_date ∧
      od'.status = f.status ∧
      od'.notes = f.notes ∧
      od'.updated_at = some db.now ∧
      od'.total_cost = (calculate_cost f.sqrtAreaSqft f.acres f.product_type f.dimension
        f.order_type (some f.soil_type) f.no_of_units).2.2.2.1 ∧
      od'.balance_due = od'.total_cost - od.advance_paid :=
  ⟨updateOrderRow db f od od, update_order_find db oid f od hfind,
   rfl, rfl, rfl, rfl, rfl, rfl, rfl, rfl, rfl, rfl, rfl, rfl, rfl, rfl, rfl, rfl, rfl,
   rfl, rfl, rfl, rfl⟩

/-- Witness for C10: editing order 2 of `dbS0` with the 25-unit form leaves
the six frame fields untouched. -/
theorem c10_update_order_frame_witness :
    (dbS0.orders.find? (fun o => o.order_id == 2) = some odS0) ∧
    ∃ od', (update_order dbS0 2 formB).orders.find? (fun o => o.order_id == 2) = some od' ∧
      od'.advance_paid = odS0.advance_paid ∧
      od'.payment_status = odS0.payment_status ∧
      od'.created_at = odS0.created_at ∧
      od'.created_by = odS0.created_by ∧
      od'.customer_id = odS0.customer_id ∧
      od'.order_id = odS0.order_id := by
  obtain ⟨od', hf, h1, h2, h3, h4, h5, h6, _⟩ :=
    c10_update_order_frame dbS0 2 formB odS0 find_dbS0
  exact ⟨find_dbS0, od', hf, h1, h2, h3, h4, h5, h6⟩
